import Mathlib

/-!
Verification of `src/multi_agent_implementation.py`: a three-role conversational
agent pipeline.  The repository supplies a custom termination predicate
(`ApprovalTerminationStrategy.should_agent_terminate`) scanning the last chat
message for the sentinel phrase "READY FOR USER APPROVAL", and a turn driver
(`run_multi_agent`) that drains the external orchestrator's response stream.

The embedding below models Python attribute access (`hasattr` / `.content`) with
an `Option` field, Python string coercion `str(...)` on the small universe of
values that can appear as a message content, failure propagation with `Except`,
and the external orchestration framework (kernel/service construction,
`add_chat_message`, the `invoke()` stream) as an abstract record of fallible
steps, since the spec places that framework outside the code under review.
-/

set_option autoImplicit false

namespace MultiAgent

/-- `matchAt needle hay` is true when `needle` occurs at the very front of
`hay`; the building block of Python's substring operator `in`. -/
def matchAt : List Char → List Char → Bool
  | [], _ => true
  | _ :: _, [] => false
  | c :: cs, d :: ds => c == d && matchAt cs ds

/-- `containsSub hay needle` is true when `needle` occurs contiguously
somewhere inside `hay`. -/
def containsSub : List Char → List Char → Bool
  | [], needle => matchAt needle []
  | hay@(_ :: t), needle => matchAt needle hay || containsSub t needle

/-- Python's case-sensitive substring test `needle in hay` on strings. -/
def strContains (hay needle : String) : Bool :=
  containsSub hay.data needle.data

/-- The universe of Python values a message `content` is modelled to range
over: strings, `None`, and (possibly nested) lists of such values. -/
inductive PyVal : Type where
  | str : String → PyVal
  | none : PyVal
  | list : List PyVal → PyVal

/-- A single-quote character, as used by Python `repr` of a string. -/
def squote : String := String.singleton (Char.ofNat 39)

mutual

/-- Python `repr` on the modelled values: strings wrapped in single quotes,
`None` printed literally, lists printed with brackets and comma-separated
`repr`s of the elements. -/
def pyRepr : PyVal → String
  | PyVal.str s => squote ++ s ++ squote
  | PyVal.none => "None"
  | PyVal.list xs => "[" ++ pyReprList xs ++ "]"

/-- The comma-separated join of the `repr`s of the elements of a list of
modelled Python values. -/
def pyReprList : List PyVal → String
  | [] => ""
  | [v] => pyRepr v
  | v :: vs => pyRepr v ++ ", " ++ pyReprList vs

end

/-- Python `str(...)` on the modelled values: a string is itself; every other
value prints as its `repr` (`str` and `repr` agree on `None` and on lists). -/
def pyStr : PyVal → String
  | PyVal.str s => s
  | v => pyRepr v

/-- Python runtime errors relevant to the code under review. -/
inductive PyError : Type where
  | attributeError : PyError
deriving DecidableEq

/-- An agent handle: the termination predicate receives one but (as the code
shows) never inspects it, so only the name is modelled. -/
structure Agent : Type where
  name : String
deriving DecidableEq

/-- A chat message as seen by the termination strategy.  `content = Option.none`
models a message object with no `content` attribute at all, so `hasattr`
is attribute presence and attribute access on an absent attribute is an
`AttributeError`. -/
structure ChatMessageContent : Type where
  name : String
  content : Option PyVal

/-- Python `hasattr(last_message, 'content')`. -/
def hasattr_content (m : ChatMessageContent) : Bool :=
  m.content.isSome

/-- Python attribute access `last_message.content`: raises `AttributeError`
when the attribute is absent. -/
def getattr_content (m : ChatMessageContent) : Except PyError PyVal :=
  match m.content with
  | some c => Except.ok c
  | Option.none => Except.error PyError.attributeError

/-- The sentinel phrase the Product Owner persona is instructed to emit. -/
def SENTINEL : String := "READY FOR USER APPROVAL"

/-- `ApprovalTerminationStrategy.should_agent_terminate(self, agent, history)`:
if the history is truthy (non-empty), take `history[-1]`; if it has a
`content` attribute and `'READY FOR USER APPROVAL' in str(last_message.content)`
then return `True`; in every other case return `False`.  The `Except` codomain
records whether any Python error escapes (none does: `hasattr` guards the
attribute access). -/
def should_agent_terminate (agent : Agent) (history : List ChatMessageContent) :
    Except PyError Bool :=
  match history.getLast? with
  | Option.none => Except.ok false
  | some last_message =>
    if hasattr_content last_message then
      match getattr_content last_message with
      | Except.error e => Except.error e
      | Except.ok c => Except.ok (strContains (pyStr c) SENTINEL)
    else
      Except.ok false

/-- `create_agents`: the three persona handles, in source order. -/
def create_agents : Agent × Agent × Agent :=
  (⟨"BusinessAnalyst"⟩, ⟨"SoftwareEngineer"⟩, ⟨"ProductOwner"⟩)

/-- A response yielded by the orchestrator's `invoke()` stream, with the
fields the turn driver reads (`response.name`, `response.content`). -/
structure AgentResponse : Type where
  name : String
  content : PyVal

/-- The console line the turn driver prints for one response:
the response name, a colon and a space, then the content coerced to text. -/
def printLine (r : AgentResponse) : String :=
  r.name ++ ": " ++ pyStr r.content

/-- The external orchestration framework, abstracted as its three fallible
steps visible to `run_multi_agent`: construction of the chat-completion
service / kernel / agents / group chat, the `add_chat_message` call, and the
`invoke()` response stream.  The stream is the finite list of responses it
yields in order, together with an optional error raised after the last yield.
The error type `ε` is abstract: the code neither inspects nor translates it. -/
structure Orchestrator (ε : Type) : Type where
  buildService : Except ε Unit
  add_chat_message : String → Except ε Unit
  invokeStream : List AgentResponse × Option ε

/-- The `async for` drain loop of `run_multi_agent`: each yielded response is
appended to the result list and printed; an error raised by the stream
propagates, discarding the collected results. -/
def invokeLoop {ε : Type} :
    List AgentResponse → Option ε → List AgentResponse → List String →
      Except ε (List AgentResponse × List String)
  | [], Option.none, responses, output =>
      Except.ok (responses.reverse, output.reverse)
  | [], some e, _, _ => Except.error e
  | r :: rs, err, responses, output =>
      invokeLoop rs err (r :: responses) (printLine r :: output)

/-- `run_multi_agent(input)`: build the service and group chat, append the
user's message, then drain the `invoke()` stream collecting and printing
responses.  Result: the collected responses and the printed console lines, or
the first error of the external framework, propagated unchanged. -/
def run_multi_agent {ε : Type} (orch : Orchestrator ε) (input : String) :
    Except ε (List AgentResponse × List String) :=
  match orch.buildService with
  | Except.error e => Except.error e
  | Except.ok _ =>
    match orch.add_chat_message input with
    | Except.error e => Except.error e
    | Except.ok _ => invokeLoop orch.invokeStream.1 orch.invokeStream.2 [] []

/-- ASCII lower-casing of one character, used only to state what a
"differently-cased variant" of the sentinel is. -/
def charLower (ch : Char) : Char :=
  if 65 ≤ ch.toNat ∧ ch.toNat ≤ 90 then Char.ofNat (ch.toNat + 32) else ch

/-- `matchAt` decides prefix occurrence. -/
theorem matchAt_eq_true_iff (needle hay : List Char) :
    matchAt needle hay = true ↔ needle <+: hay := by
  induction needle generalizing hay with
  | nil => simp [matchAt]
  | cons c cs ih =>
    cases hay with
    | nil => simp [matchAt]
    | cons d ds => simp [matchAt, ih, List.cons_prefix_cons]

/-- `containsSub` decides contiguous-substring occurrence. -/
theorem containsSub_eq_true_iff (hay needle : List Char) :
    containsSub hay needle = true ↔ needle <:+: hay := by
  induction hay with
  | nil => simp [containsSub, matchAt_eq_true_iff]
  | cons d ds ih =>
    simp [containsSub, matchAt_eq_true_iff, ih, List.infix_cons_iff]

/-- Python's `needle in hay` is contiguous-substring occurrence on the
underlying character lists. -/
theorem strContains_eq_true_iff (hay needle : String) :
    strContains hay needle = true ↔ needle.data <:+: hay.data :=
  containsSub_eq_true_iff hay.data needle.data

/-- The termination predicate always returns a boolean, never an error. -/
theorem terminate_ok (agent : Agent) (history : List ChatMessageContent) :
    ∃ b : Bool, should_agent_terminate agent history = Except.ok b := by
  unfold should_agent_terminate
  cases history.getLast? with
  | none => exact ⟨false, rfl⟩
  | some m =>
    cases hc : m.content with
    | none => exact ⟨false, by simp [hasattr_content, hc]⟩
    | some c =>
      exact ⟨strContains (pyStr c) SENTINEL,
        by simp [hasattr_content, getattr_content, hc]⟩

/-- Draining an error-free stream collects every yielded response in order
and prints one line per response, in the same order. -/
theorem invokeLoop_eq_of_none {ε : Type} (ys acc : List AgentResponse)
    (out : List String) :
    invokeLoop ys (Option.none : Option ε) acc out =
      Except.ok (acc.reverse ++ ys, out.reverse ++ ys.map printLine) := by
  induction ys generalizing acc out with
  | nil => simp [invokeLoop]
  | cons r rs ih => simp [invokeLoop, ih]

/-- A stream that raises propagates its error out of the drain loop. -/
theorem invokeLoop_eq_of_some {ε : Type} (ys : List AgentResponse) (e : ε)
    (acc : List AgentResponse) (out : List String) :
    invokeLoop ys (some e) acc out = Except.error e := by
  induction ys generalizing acc out with
  | nil => rfl
  | cons r rs ih => simp [invokeLoop, ih]

/-- A response carrying the sentinel, as the Product Owner persona emits it. -/
def respReady : AgentResponse :=
  ⟨"ProductOwner", PyVal.str "READY FOR USER APPROVAL"⟩

/-- An orchestrator whose every step succeeds and whose stream yields exactly
one response. -/
def orchOk : Orchestrator String :=
  ⟨Except.ok (), fun _ => Except.ok (), ([respReady], Option.none)⟩

/-- An orchestrator whose service construction fails, as with the
unconfigured Azure credentials left as placeholders in the source. -/
def orchFail : Orchestrator String :=
  ⟨Except.error "Azure OpenAI credentials not configured",
    fun _ => Except.ok (), ([], Option.none)⟩

/-- Claim C1: the termination predicate returns true exactly when the history
is non-empty and the content of its last message, coerced to text, contains
the literal substring "READY FOR USER APPROVAL"; in every other case
(empty history, last message without a content attribute, sentinel absent)
it returns false. -/
theorem C1_terminate_true_iff_last_contains_sentinel (agent : Agent)
    (history : List ChatMessageContent) :
    (should_agent_terminate agent history = Except.ok true ↔
      ∃ m c, history.getLast? = some m ∧ m.content = some c ∧
        SENTINEL.data <:+: (pyStr c).data) ∧
    (should_agent_terminate agent history = Except.ok true ∨
      should_agent_terminate agent history = Except.ok false) := by
  constructor
  · unfold should_agent_terminate
    cases hl : history.getLast? with
    | none => simp
    | some m =>
      cases hc : m.content with
      | none => simp [hasattr_content, hc]
      | some c =>
        simp [hasattr_content, getattr_content, hc, ← strContains_eq_true_iff]
  · obtain ⟨b, hb⟩ := terminate_ok agent history
    cases b
    · exact Or.inr hb
    · exact Or.inl hb

/-- Claim C2: the termination predicate examines only the last element of the
history: on any non-empty history it agrees with the one-element history
holding only the last message, so sentinel occurrences in earlier messages are
ignored. -/
theorem C2_terminate_examines_only_last (agent : Agent)
    (history : List ChatMessageContent) (m : ChatMessageContent)
    (hm : history.getLast? = some m) :
    should_agent_terminate agent history = should_agent_terminate agent [m] := by
  unfold should_agent_terminate
  rw [hm]
  rfl

/-- Witness for C2 at the spec's own example: an earlier message plus a final
sentinel-bearing message agrees with the final message alone. -/
theorem C2_witness :
    should_agent_terminate create_agents.2.2
        [⟨"BusinessAnalyst", some (PyVal.str "here is the project plan")⟩,
         ⟨"ProductOwner", some (PyVal.str "READY FOR USER APPROVAL now")⟩] =
      should_agent_terminate create_agents.2.2
        [⟨"ProductOwner", some (PyVal.str "READY FOR USER APPROVAL now")⟩] :=
  C2_terminate_examines_only_last create_agents.2.2
    [⟨"BusinessAnalyst", some (PyVal.str "here is the project plan")⟩,
     ⟨"ProductOwner", some (PyVal.str "READY FOR USER APPROVAL now")⟩]
    ⟨"ProductOwner", some (PyVal.str "READY FOR USER APPROVAL now")⟩ rfl

/-- Claim C3: when every orchestrator step succeeds, `run_multi_agent` returns
exactly the responses the stream yields, in yield order, none dropped or
added. -/
theorem C3_run_returns_all_yielded_in_order {ε : Type} (orch : Orchestrator ε)
    (input : String) (ys : List AgentResponse)
    (h1 : orch.buildService = Except.ok ())
    (h2 : orch.add_chat_message input = Except.ok ())
    (h3 : orch.invokeStream = (ys, (Option.none : Option ε))) :
    ∃ output, run_multi_agent orch input = Except.ok (ys, output) := by
  refine ⟨ys.map printLine, ?_⟩
  unfold run_multi_agent
  rw [h1, h2, h3]
  simpa using invokeLoop_eq_of_none ys [] []

/-- Witness for C3: a one-response stream is returned as a one-element list. -/
theorem C3_witness :
    ∃ output, run_multi_agent orchOk "I need a simple calculator web app" =
      Except.ok ([respReady], output) :=
  C3_run_returns_all_yielded_in_order orchOk
    "I need a simple calculator web app" [respReady] rfl rfl rfl

/-- Claim C4: `run_multi_agent` performs no recovery, retry, or error
translation: a failure in service construction, in the message append, or
raised by the response stream propagates out unchanged. -/
theorem C4_failures_propagate_unchanged {ε : Type} (orch : Orchestrator ε)
    (input : String) (e : ε)
    (h : orch.buildService = Except.error e ∨
      (orch.buildService = Except.ok () ∧
        orch.add_chat_message input = Except.error e) ∨
      (orch.buildService = Except.ok () ∧
        orch.add_chat_message input = Except.ok () ∧
        orch.invokeStream.2 = some e)) :
    run_multi_agent orch input = Except.error e := by
  unfold run_multi_agent
  rcases h with h1 | ⟨h1, h2⟩ | ⟨h1, h2, h3⟩
  · rw [h1]
  · rw [h1, h2]
  · rw [h1, h2, h3]
    exact invokeLoop_eq_of_some _ e [] []

/-- Witness for C4: a credentials failure in service construction surfaces
unchanged from `run_multi_agent`. -/
theorem C4_witness :
    run_multi_agent orchFail "I need a simple calculator web app" =
      Except.error "Azure OpenAI credentials not configured" :=
  C4_failures_propagate_unchanged orchFail "I need a simple calculator web app"
    "Azure OpenAI credentials not configured" (Or.inl rfl)

/-- Claim C5: sentinel matching is case-sensitive: a last message whose
content contains a differently-cased variant of the sentinel (same letters
after ASCII lower-casing, but not the exact string) does not trigger
termination. -/
theorem C5_sentinel_matching_case_sensitive (agent : Agent)
    (history : List ChatMessageContent) (m : ChatMessageContent) (c : PyVal)
    (hm : history.getLast? = some m) (hc : m.content = some c)
    (hvar : ∃ v : String, v ≠ SENTINEL ∧
      v.data.map charLower = SENTINEL.data.map charLower ∧
      v.data <:+: (pyStr c).data)
    (hnot : ¬ SENTINEL.data <:+: (pyStr c).data) :
    should_agent_terminate agent history = Except.ok false := by
  unfold should_agent_terminate
  rw [hm]
  rw [← strContains_eq_true_iff] at hnot
  simp [hasattr_content, getattr_content, hc]
  simpa using hnot

/-- Witness for C5: the all-lowercase variant "ready for user approval" does
not terminate the conversation. -/
theorem C5_witness :
    should_agent_terminate create_agents.2.2
        [⟨"ProductOwner", some (PyVal.str "ready for user approval")⟩] =
      Except.ok false :=
  C5_sentinel_matching_case_sensitive create_agents.2.2
    [⟨"ProductOwner", some (PyVal.str "ready for user approval")⟩]
    ⟨"ProductOwner", some (PyVal.str "ready for user approval")⟩
    (PyVal.str "ready for user approval") rfl rfl
    ⟨"ready for user approval", by decide, by decide, by decide⟩ (by decide)

/-- Claim C6: the termination predicate is total and effect-free: for every
agent and history it returns a boolean outcome and never an error; it takes
the history by value and returns only the boolean, so no state is modified. -/
theorem C6_terminate_total_and_effect_free (agent : Agent)
    (history : List ChatMessageContent) :
    ∃ b : Bool, should_agent_terminate agent history = Except.ok b :=
  terminate_ok agent history

/-- Claim C7: the turn driver prints exactly one console line per yielded
response, of the form "name: content", in the same order as the responses in
the returned list. -/
theorem C7_one_console_line_per_response {ε : Type} (orch : Orchestrator ε)
    (input : String) (rs : List AgentResponse) (out : List String)
    (h : run_multi_agent orch input = Except.ok (rs, out)) :
    out = rs.map (fun r => r.name ++ ": " ++ pyStr r.content) := by
  unfold run_multi_agent at h
  cases h1 : orch.buildService with
  | error e => rw [h1] at h; exact Except.noConfusion h
  | ok u =>
    rw [h1] at h
    cases h2 : orch.add_chat_message input with
    | error e => rw [h2] at h; exact Except.noConfusion h
    | ok v =>
      rw [h2] at h
      cases h3 : orch.invokeStream.2 with
      | some e =>
        rw [h3, invokeLoop_eq_of_some] at h
        exact Except.noConfusion h
      | none =>
        rw [h3, invokeLoop_eq_of_none] at h
        simp only [List.reverse_nil, List.nil_append, Except.ok.injEq,
          Prod.mk.injEq] at h
        obtain ⟨hrs, hout⟩ := h
        subst hrs
        subst hout
        rfl

/-- Witness for C7: the single yielded sentinel response is printed as the
single line "ProductOwner: READY FOR USER APPROVAL". -/
theorem C7_witness :
    ["ProductOwner: READY FOR USER APPROVAL"] =
      [respReady].map (fun r => r.name ++ ": " ++ pyStr r.content) :=
  C7_one_console_line_per_response orchOk "I need a simple calculator web app"
    [respReady] ["ProductOwner: READY FOR USER APPROVAL"] rfl

/-- Claim C8: the termination predicate never inspects its agent argument:
any two agents give the same verdict on every history, so a sentinel in the
last message terminates no matter which agent produced it. -/
theorem C8_agent_argument_irrelevant (a1 a2 : Agent)
    (history : List ChatMessageContent) :
    should_agent_terminate a1 history = should_agent_terminate a2 history :=
  rfl

/-- Claim C9: a last message with no content attribute at all makes the
termination predicate return false rather than raise an error. -/
theorem C9_missing_content_returns_false (agent : Agent)
    (history : List ChatMessageContent) (m : ChatMessageContent)
    (hm : history.getLast? = some m) (hc : m.content = Option.none) :
    should_agent_terminate agent history = Except.ok false := by
  unfold should_agent_terminate
  rw [hm]
  simp [hasattr_content, hc]

/-- Witness for C9: a content-less last message yields false, not an
AttributeError. -/
theorem C9_witness :
    should_agent_terminate create_agents.1
        [⟨"SoftwareEngineer", Option.none⟩] = Except.ok false :=
  C9_missing_content_returns_false create_agents.1
    [⟨"SoftwareEngineer", Option.none⟩]
    ⟨"SoftwareEngineer", Option.none⟩ rfl rfl

/-- Claim C10: the last message's content is coerced to text via Python
`str()` before the substring test, so a non-string content whose string
representation contains the sentinel triggers termination. -/
theorem C10_content_coerced_via_str (agent : Agent)
    (history : List ChatMessageContent) (m : ChatMessageContent) (c : PyVal)
    (hm : history.getLast? = some m) (hc : m.content = some c)
    (hns : ∀ s : String, c ≠ PyVal.str s)
    (hin : SENTINEL.data <:+: (pyStr c).data) :
    should_agent_terminate agent history = Except.ok true := by
  unfold should_agent_terminate
  rw [hm]
  rw [← strContains_eq_true_iff] at hin
  simp [hasattr_content, getattr_content, hc, hin]

/-- Witness for C10: a list holding the sentinel string prints (via `str`)
as a bracketed quoted form that still contains the sentinel, so it
terminates. -/
theorem C10_witness :
    should_agent_terminate create_agents.2.1
        [⟨"ProductOwner",
          some (PyVal.list [PyVal.str "READY FOR USER APPROVAL"])⟩] =
      Except.ok true :=
  C10_content_coerced_via_str create_agents.2.1
    [⟨"ProductOwner",
      some (PyVal.list [PyVal.str "READY FOR USER APPROVAL"])⟩]
    ⟨"ProductOwner", some (PyVal.list [PyVal.str "READY FOR USER APPROVAL"])⟩
    (PyVal.list [PyVal.str "READY FOR USER APPROVAL"]) rfl rfl
    (fun s h => PyVal.noConfusion h) (by decide)

end MultiAgent
